import Mathlib

/-!
# VirtualBarometer (examples/apogee-detect)

A shallow embedding of `VirtualBarometer.cpp` / `VirtualBarometer.h`.

The adapter performs no arithmetic on the `float` readings it hands out, so
the type of readings is a parameter `F` of the development.  The vendor
driver `BME280` talks to a physical bus; what the bus answers is a parameter
(`Bus`), and the state of the hardware behind the driver is an arbitrary
type `H`.  Every call of a driver method is recorded in the driver's call
log, so that "which driver calls did this method issue" can be stated.
-/

namespace ApogeeDetect

/-! ## The vendor driver (SparkFunBME280.h) -/

/-- The driver methods used by `VirtualBarometer.cpp`, as recorded events. -/
inductive DriverCall where
  | setI2CAddress (address : Nat)
  | beginI2C
  | readTempC
  | readFloatPressure
  | readFloatHumidity
  deriving DecidableEq, Repr

/-- What the hardware behind the driver does.  Each operation receives the
I2C address the driver currently holds and the hardware state, and gives
back its answer and the next hardware state.  `beginI2C` answers whether the
chip was found. -/
structure Bus (H F : Type) where
  beginI2C : Nat → H → Bool × H
  readTempC : Nat → H → F × H
  readFloatPressure : Nat → H → F × H
  readFloatHumidity : Nat → H → F × H

/-- The member `BME280 sensor`: the address setting of the driver, the state
of the hardware it drives, and the log of the calls made on it. -/
structure BME280 (H : Type) where
  I2CAddress : Nat
  hw : H
  calls : List DriverCall

namespace BME280

variable {H F : Type}

/-- The call `sensor.setI2CAddress(address)`, with a `uint8_t` argument:
stores the address in the driver's settings. -/
def setI2CAddress (s : BME280 H) (address : Nat) : BME280 H :=
  { s with I2CAddress := address % 256,
           calls := s.calls ++ [DriverCall.setI2CAddress (address % 256)] }

/-- The call `sensor.beginI2C()`: starts communication at the stored
address; the result says whether it succeeded. -/
def beginI2C (bus : Bus H F) (s : BME280 H) : Bool × BME280 H :=
  let r := bus.beginI2C s.I2CAddress s.hw
  (r.1, { s with hw := r.2, calls := s.calls ++ [DriverCall.beginI2C] })

/-- The call `sensor.readTempC()`. -/
def readTempC (bus : Bus H F) (s : BME280 H) : F × BME280 H :=
  let r := bus.readTempC s.I2CAddress s.hw
  (r.1, { s with hw := r.2, calls := s.calls ++ [DriverCall.readTempC] })

/-- The call `sensor.readFloatPressure()`. -/
def readFloatPressure (bus : Bus H F) (s : BME280 H) : F × BME280 H :=
  let r := bus.readFloatPressure s.I2CAddress s.hw
  (r.1, { s with hw := r.2, calls := s.calls ++ [DriverCall.readFloatPressure] })

/-- The call `sensor.readFloatHumidity()`. -/
def readFloatHumidity (bus : Bus H F) (s : BME280 H) : F × BME280 H :=
  let r := bus.readFloatHumidity s.I2CAddress s.hw
  (r.1, { s with hw := r.2, calls := s.calls ++ [DriverCall.readFloatHumidity] })

end BME280

/-! ## The base class (VirtualSensor.h) -/

/-- Modelled from the spec: the base class `VirtualSensor` (`VirtualSensor.h`,
with its members `manufacturer`, `name`, `isTesting`, `getFloatSimulated` and
`println`) is not among the sources.  Following the spec, it holds a testing
mode and "externally supplied simulated values keyed by field name"; text
printed by `println` is collected in `console`. -/
structure VirtualSensor (F : Type) where
  manufacturer : String
  name : String
  testing : Bool
  simulated : String → F
  console : List String

/-- The whole object: the base class part and the private member `sensor`. -/
structure VirtualBarometer (H F : Type) extends VirtualSensor F where
  sensor : BME280 H

namespace VirtualBarometer

variable {H F : Type}

/-- Modelled from the spec: `isTesting()` of the missing base class, which
tells whether the adapter is in testing mode. -/
def isTesting (vb : VirtualBarometer H F) : Bool :=
  vb.testing

/-- Modelled from the spec: `getFloatSimulated(key)` of the missing base
class, the simulated value supplied under the field name `key`. -/
def getFloatSimulated (vb : VirtualBarometer H F) (key : String) : F :=
  vb.simulated key

/-- Modelled from the spec: `println(text)` of the missing base class, which
prints a line of text. -/
def println (vb : VirtualBarometer H F) (text : String) : VirtualBarometer H F :=
  { vb with console := vb.console ++ [text] }

/-- The constructor `VirtualBarometer::VirtualBarometer()`: it runs on the
object as the constructors of the base class and of the member `sensor` left
it, and assigns `manufacturer` and `name`. -/
def construct (base : VirtualSensor F) (sensor : BME280 H) : VirtualBarometer H F :=
  let vb : VirtualBarometer H F := { base with sensor := sensor }
  let vb := { vb with manufacturer := "Sparkfun" }
  { vb with name := "BME280" }

/-- The method `void VirtualBarometer::connect()`.  The `bool` returned by
`sensor.beginI2C()` is dropped. -/
def connect (bus : Bus H F) (vb : VirtualBarometer H F) : VirtualBarometer H F :=
  let vb := vb.println "Starting I2C communication."
  let vb := { vb with sensor := vb.sensor.setI2CAddress 0x76 }
  { vb with sensor := (vb.sensor.beginI2C bus).2 }

/-- The method `float VirtualBarometer::getTemperature()`: the returned
reading and the object after the call. -/
def getTemperature (bus : Bus H F) (vb : VirtualBarometer H F) :
    F × VirtualBarometer H F :=
  if vb.isTesting then
    (vb.getFloatSimulated "air_temperature", vb)
  else
    let r := vb.sensor.readTempC bus
    (r.1, { vb with sensor := r.2 })

/-- The method `float VirtualBarometer::getPressure()`. -/
def getPressure (bus : Bus H F) (vb : VirtualBarometer H F) :
    F × VirtualBarometer H F :=
  if vb.isTesting then
    (vb.getFloatSimulated "air_pressure", vb)
  else
    let r := vb.sensor.readFloatPressure bus
    (r.1, { vb with sensor := r.2 })

/-- The method `float VirtualBarometer::getHumidity()`. -/
def getHumidity (bus : Bus H F) (vb : VirtualBarometer H F) :
    F × VirtualBarometer H F :=
  if vb.isTesting then
    (vb.getFloatSimulated "humidity", vb)
  else
    let r := vb.sensor.readFloatHumidity bus
    (r.1, { vb with sensor := r.2 })

end VirtualBarometer

/-! ## Programs over the public interface -/

/-- The public methods of `VirtualBarometer` (after construction). -/
inductive Method where
  | connect
  | getTemperature
  | getPressure
  | getHumidity
  deriving DecidableEq, Repr

/-- The object after one call of a public method. -/
def Method.exec {H F : Type} (bus : Bus H F) (m : Method)
    (vb : VirtualBarometer H F) : VirtualBarometer H F :=
  match m with
  | .connect => vb.connect bus
  | .getTemperature => (vb.getTemperature bus).2
  | .getPressure => (vb.getPressure bus).2
  | .getHumidity => (vb.getHumidity bus).2

/-- The object after a sequence of calls, made from left to right. -/
def runMethods {H F : Type} (bus : Bus H F) (ms : List Method)
    (vb : VirtualBarometer H F) : VirtualBarometer H F :=
  ms.foldl (fun s m => m.exec bus s) vb

/-- The driver calls recorded between the object `before` a method call and
the object `after` it: what the call added to the driver's log. -/
def callsDuring {H F : Type} (before after : VirtualBarometer H F) : List DriverCall :=
  after.sensor.calls.drop before.sensor.calls.length

/-! ## The documented ranges of the readings -/

/-- The range in the comment of `getTemperature`: between -40 and 85 °C. -/
def temperatureInRange (t : ℚ) : Prop := -40 ≤ t ∧ t ≤ 85

/-- The range in the comment of `getPressure`: between 30000 and 110000 Pa. -/
def pressureInRange (p : ℚ) : Prop := 30000 ≤ p ∧ p ≤ 110000

/-- The range in the comment of `getHumidity`: between 0 and 100 percent. -/
def humidityInRange (h : ℚ) : Prop := 0 ≤ h ∧ h ≤ 100

instance (t : ℚ) : Decidable (temperatureInRange t) := by
  unfold temperatureInRange; infer_instance

instance (p : ℚ) : Decidable (pressureInRange p) := by
  unfold pressureInRange; infer_instance

instance (h : ℚ) : Decidable (humidityInRange h) := by
  unfold humidityInRange; infer_instance

/-! ## A concrete bench set-up, used to exercise the model -/

/-- A bench bus whose hardware state counts the transactions made on it.
The chip answers only at address 0x76; its readings are fixed. -/
def benchBus : Bus Nat ℚ where
  beginI2C := fun address n => (address == 0x76, n + 1)
  readTempC := fun _ n => (43 / 2, n + 1)
  readFloatPressure := fun _ n => (101325, n + 1)
  readFloatHumidity := fun _ n => (40, n + 1)

/-- A bench bus like `benchBus` on which no chip ever answers: `beginI2C`
fails at every address. -/
def deadBus : Bus Nat ℚ where
  beginI2C := fun _ n => (false, n + 1)
  readTempC := fun _ n => (43 / 2, n + 1)
  readFloatPressure := fun _ n => (101325, n + 1)
  readFloatHumidity := fun _ n => (40, n + 1)

/-- Simulated values for a ground test. -/
def benchSimulated : String → ℚ := fun key =>
  if key = "air_temperature" then 15
  else if key = "air_pressure" then 90000
  else if key = "humidity" then 55
  else 0

/-- A freshly constructed adapter, its driver at the vendor's default
address 0x77, with the testing mode as given. -/
def benchAdapter (testing : Bool) : VirtualBarometer Nat ℚ :=
  VirtualBarometer.construct
    { manufacturer := "", name := "", testing := testing,
      simulated := benchSimulated, console := [] }
    { I2CAddress := 0x77, hw := 0, calls := [] }

/-- Simulated values outside every documented range. -/
def hotSimulated : String → ℚ := fun _ => 1000

/-- An adapter in testing mode fed with `hotSimulated`. -/
def hotAdapter : VirtualBarometer Nat ℚ :=
  VirtualBarometer.construct
    { manufacturer := "", name := "", testing := true,
      simulated := hotSimulated, console := [] }
    { I2CAddress := 0x77, hw := 0, calls := [] }

/-! ## Basic facts about the accessors -/

section Lemmas

variable {H F : Type}

theorem getTemperature_testing (bus : Bus H F) (vb : VirtualBarometer H F)
    (ht : vb.isTesting = true) :
    vb.getTemperature bus = (vb.simulated "air_temperature", vb) := by
  simp [VirtualBarometer.getTemperature, VirtualBarometer.getFloatSimulated, ht]

theorem getPressure_testing (bus : Bus H F) (vb : VirtualBarometer H F)
    (ht : vb.isTesting = true) :
    vb.getPressure bus = (vb.simulated "air_pressure", vb) := by
  simp [VirtualBarometer.getPressure, VirtualBarometer.getFloatSimulated, ht]

theorem getHumidity_testing (bus : Bus H F) (vb : VirtualBarometer H F)
    (ht : vb.isTesting = true) :
    vb.getHumidity bus = (vb.simulated "humidity", vb) := by
  simp [VirtualBarometer.getHumidity, VirtualBarometer.getFloatSimulated, ht]

theorem getTemperature_live (bus : Bus H F) (vb : VirtualBarometer H F)
    (ht : vb.isTesting = false) :
    vb.getTemperature bus =
      ((vb.sensor.readTempC bus).1, { vb with sensor := (vb.sensor.readTempC bus).2 }) := by
  simp [VirtualBarometer.getTemperature, ht]

theorem getPressure_live (bus : Bus H F) (vb : VirtualBarometer H F)
    (ht : vb.isTesting = false) :
    vb.getPressure bus =
      ((vb.sensor.readFloatPressure bus).1,
        { vb with sensor := (vb.sensor.readFloatPressure bus).2 }) := by
  simp [VirtualBarometer.getPressure, ht]

theorem getHumidity_live (bus : Bus H F) (vb : VirtualBarometer H F)
    (ht : vb.isTesting = false) :
    vb.getHumidity bus =
      ((vb.sensor.readFloatHumidity bus).1,
        { vb with sensor := (vb.sensor.readFloatHumidity bus).2 }) := by
  simp [VirtualBarometer.getHumidity, ht]

theorem callsDuring_append (a b : VirtualBarometer H F) (l : List DriverCall)
    (h : b.sensor.calls = a.sensor.calls ++ l) : callsDuring a b = l := by
  simp [callsDuring, h]

/-- One call of a public method leaves the base class part untouched, except
for the text that `connect` prints. -/
theorem exec_base (bus : Bus H F) (m : Method) (vb : VirtualBarometer H F) :
    (m.exec bus vb).manufacturer = vb.manufacturer ∧
    (m.exec bus vb).name = vb.name ∧
    (m.exec bus vb).testing = vb.testing ∧
    (m.exec bus vb).simulated = vb.simulated := by
  cases m
  · simp [Method.exec, VirtualBarometer.connect, VirtualBarometer.println]
  · cases ht : vb.isTesting
    · simp [Method.exec, getTemperature_live bus vb ht]
    · simp [Method.exec, getTemperature_testing bus vb ht]
  · cases ht : vb.isTesting
    · simp [Method.exec, getPressure_live bus vb ht]
    · simp [Method.exec, getPressure_testing bus vb ht]
  · cases ht : vb.isTesting
    · simp [Method.exec, getHumidity_live bus vb ht]
    · simp [Method.exec, getHumidity_testing bus vb ht]

/-- A sequence of calls of public methods leaves `manufacturer` and `name`
as they were. -/
theorem runMethods_identity (bus : Bus H F) (ms : List Method) (vb : VirtualBarometer H F) :
    (runMethods bus ms vb).manufacturer = vb.manufacturer ∧
    (runMethods bus ms vb).name = vb.name := by
  induction ms generalizing vb with
  | nil => exact ⟨rfl, rfl⟩
  | cons m ms ih =>
    have hm := exec_base bus m vb
    have hr := ih (m.exec bus vb)
    simp only [runMethods, List.foldl_cons] at hr ⊢
    exact ⟨hr.1.trans hm.1, hr.2.trans hm.2.1⟩

end Lemmas

/-! ## The accessors in testing mode -/

section Testing

variable {H F : Type}

/-- C1: in testing mode `getTemperature`, `getPressure` and `getHumidity`
return exactly the simulated values stored under "air_temperature",
"air_pressure" and "humidity"; the result is the same for any other bus and
any other adapter in testing mode (whatever its driver and its other
simulated values) that stores the same value under that key. -/
theorem testing_returns_simulated (bus : Bus H F) (vb : VirtualBarometer H F)
    (ht : vb.isTesting = true) :
    (vb.getTemperature bus).1 = vb.simulated "air_temperature" ∧
    (vb.getPressure bus).1 = vb.simulated "air_pressure" ∧
    (vb.getHumidity bus).1 = vb.simulated "humidity" ∧
    ∀ (bus2 : Bus H F) (vb2 : VirtualBarometer H F), vb2.isTesting = true →
      (vb2.simulated "air_temperature" = vb.simulated "air_temperature" →
        (vb2.getTemperature bus2).1 = (vb.getTemperature bus).1) ∧
      (vb2.simulated "air_pressure" = vb.simulated "air_pressure" →
        (vb2.getPressure bus2).1 = (vb.getPressure bus).1) ∧
      (vb2.simulated "humidity" = vb.simulated "humidity" →
        (vb2.getHumidity bus2).1 = (vb.getHumidity bus).1) := by
  refine ⟨?_, ?_, ?_, ?_⟩
  · rw [getTemperature_testing bus vb ht]
  · rw [getPressure_testing bus vb ht]
  · rw [getHumidity_testing bus vb ht]
  · intro bus2 vb2 ht2
    rw [getTemperature_testing bus vb ht, getPressure_testing bus vb ht,
      getHumidity_testing bus vb ht, getTemperature_testing bus2 vb2 ht2,
      getPressure_testing bus2 vb2 ht2, getHumidity_testing bus2 vb2 ht2]
    exact ⟨id, id, id⟩

/-- The bench adapter in testing mode hands out its three simulated values,
not the readings 43/2, 101325 and 40 of the bench bus. -/
theorem testing_returns_simulated_witness :
    (benchAdapter true).isTesting = true ∧
    ((benchAdapter true).getTemperature benchBus).1 = 15 ∧
    ((benchAdapter true).getPressure benchBus).1 = 90000 ∧
    ((benchAdapter true).getHumidity benchBus).1 = 55 :=
  have h := testing_returns_simulated benchBus (benchAdapter true) rfl
  ⟨rfl, h.1.trans (by simp [benchAdapter, VirtualBarometer.construct, benchSimulated]),
    h.2.1.trans (by simp [benchAdapter, VirtualBarometer.construct, benchSimulated]),
    h.2.2.1.trans (by simp [benchAdapter, VirtualBarometer.construct, benchSimulated])⟩

/-- C2: in testing mode a call of `getTemperature`, `getPressure` or
`getHumidity` records no driver call and leaves the driver (its address, the
hardware behind it and its call log) as it was, whatever the bus would do. -/
theorem testing_leaves_driver_alone (bus : Bus H F) (vb : VirtualBarometer H F)
    (ht : vb.isTesting = true) :
    (callsDuring vb (vb.getTemperature bus).2 = [] ∧
      (vb.getTemperature bus).2.sensor = vb.sensor) ∧
    (callsDuring vb (vb.getPressure bus).2 = [] ∧
      (vb.getPressure bus).2.sensor = vb.sensor) ∧
    (callsDuring vb (vb.getHumidity bus).2 = [] ∧
      (vb.getHumidity bus).2.sensor = vb.sensor) := by
  rw [getTemperature_testing bus vb ht, getPressure_testing bus vb ht,
    getHumidity_testing bus vb ht]
  simp [callsDuring]

/-- On the bench, after `connect` has logged two driver calls and the bus
has seen one transaction, the three accessors in testing mode add nothing. -/
theorem testing_leaves_driver_alone_witness :
    ((benchAdapter true).connect benchBus).isTesting = true ∧
    ((benchAdapter true).connect benchBus).sensor.hw = 1 ∧
    (((benchAdapter true).connect benchBus).getTemperature benchBus).2.sensor.hw = 1 ∧
    (((benchAdapter true).connect benchBus).getPressure benchBus).2.sensor.calls =
      [DriverCall.setI2CAddress 0x76, DriverCall.beginI2C] ∧
    callsDuring ((benchAdapter true).connect benchBus)
      (((benchAdapter true).connect benchBus).getHumidity benchBus).2 = [] :=
  have h := testing_leaves_driver_alone benchBus ((benchAdapter true).connect benchBus) rfl
  ⟨rfl, rfl, congrArg BME280.hw h.1.2, congrArg BME280.calls h.2.1.2, h.2.2.1⟩

end Testing

/-! ## The accessors outside testing mode -/

section Live

variable {H F : Type}

/-- C4: outside testing mode each accessor is a pass-through.  The value
returned is the one returned by a single `readTempC` (`readFloatPressure`,
`readFloatHumidity`) call of the driver, the object afterwards is the old one
with the driver as that call left it, that call is the only driver call
recorded, and the table of simulated values has no influence on the value
returned nor on the driver. -/
theorem live_is_pass_through (bus : Bus H F) (vb : VirtualBarometer H F)
    (ht : vb.isTesting = false) :
    (vb.getTemperature bus =
        ((vb.sensor.readTempC bus).1, { vb with sensor := (vb.sensor.readTempC bus).2 }) ∧
      (vb.getTemperature bus).1 = (bus.readTempC vb.sensor.I2CAddress vb.sensor.hw).1 ∧
      callsDuring vb (vb.getTemperature bus).2 = [DriverCall.readTempC] ∧
      ∀ sim : String → F,
        (({ vb with simulated := sim } : VirtualBarometer H F).getTemperature bus).1 =
            (vb.getTemperature bus).1 ∧
        (({ vb with simulated := sim } : VirtualBarometer H F).getTemperature bus).2.sensor =
            (vb.getTemperature bus).2.sensor) ∧
    (vb.getPressure bus =
        ((vb.sensor.readFloatPressure bus).1,
          { vb with sensor := (vb.sensor.readFloatPressure bus).2 }) ∧
      (vb.getPressure bus).1 = (bus.readFloatPressure vb.sensor.I2CAddress vb.sensor.hw).1 ∧
      callsDuring vb (vb.getPressure bus).2 = [DriverCall.readFloatPressure] ∧
      ∀ sim : String → F,
        (({ vb with simulated := sim } : VirtualBarometer H F).getPressure bus).1 =
            (vb.getPressure bus).1 ∧
        (({ vb with simulated := sim } : VirtualBarometer H F).getPressure bus).2.sensor =
            (vb.getPressure bus).2.sensor) ∧
    (vb.getHumidity bus =
        ((vb.sensor.readFloatHumidity bus).1,
          { vb with sensor := (vb.sensor.readFloatHumidity bus).2 }) ∧
      (vb.getHumidity bus).1 = (bus.readFloatHumidity vb.sensor.I2CAddress vb.sensor.hw).1 ∧
      callsDuring vb (vb.getHumidity bus).2 = [DriverCall.readFloatHumidity] ∧
      ∀ sim : String → F,
        (({ vb with simulated := sim } : VirtualBarometer H F).getHumidity bus).1 =
            (vb.getHumidity bus).1 ∧
        (({ vb with simulated := sim } : VirtualBarometer H F).getHumidity bus).2.sensor =
            (vb.getHumidity bus).2.sensor) := by
  have ht2 : ∀ sim : String → F,
      ({ vb with simulated := sim } : VirtualBarometer H F).isTesting = false := fun _ => ht
  refine ⟨⟨getTemperature_live bus vb ht, ?_, ?_, ?_⟩,
    ⟨getPressure_live bus vb ht, ?_, ?_, ?_⟩,
    ⟨getHumidity_live bus vb ht, ?_, ?_, ?_⟩⟩
  · rw [getTemperature_live bus vb ht]; rfl
  · rw [getTemperature_live bus vb ht]; simp [callsDuring, BME280.readTempC]
  · intro sim
    rw [getTemperature_live bus vb ht, getTemperature_live bus _ (ht2 sim)]
    exact ⟨rfl, rfl⟩
  · rw [getPressure_live bus vb ht]; rfl
  · rw [getPressure_live bus vb ht]; simp [callsDuring, BME280.readFloatPressure]
  · intro sim
    rw [getPressure_live bus vb ht, getPressure_live bus _ (ht2 sim)]
    exact ⟨rfl, rfl⟩
  · rw [getHumidity_live bus vb ht]; rfl
  · rw [getHumidity_live bus vb ht]; simp [callsDuring, BME280.readFloatHumidity]
  · intro sim
    rw [getHumidity_live bus vb ht, getHumidity_live bus _ (ht2 sim)]
    exact ⟨rfl, rfl⟩

/-- The bench adapter outside testing mode hands out the readings 43/2,
101325 and 40 of the bench bus, and logs one read each time. -/
theorem live_is_pass_through_witness :
    (benchAdapter false).isTesting = false ∧
    ((benchAdapter false).getTemperature benchBus).1 = 43 / 2 ∧
    callsDuring (benchAdapter false) ((benchAdapter false).getTemperature benchBus).2 =
      [DriverCall.readTempC] ∧
    ((benchAdapter false).getPressure benchBus).1 = 101325 ∧
    callsDuring (benchAdapter false) ((benchAdapter false).getPressure benchBus).2 =
      [DriverCall.readFloatPressure] ∧
    ((benchAdapter false).getHumidity benchBus).1 = 40 ∧
    callsDuring (benchAdapter false) ((benchAdapter false).getHumidity benchBus).2 =
      [DriverCall.readFloatHumidity] :=
  have h := live_is_pass_through benchBus (benchAdapter false) rfl
  ⟨rfl, h.1.2.1, h.1.2.2.1, h.2.1.2.1, h.2.1.2.2.1, h.2.2.2.1, h.2.2.2.2.1⟩

end Live

/-! ## connect -/

section Connect

variable {H F : Type}

/-- C5: `connect` issues exactly the driver calls `setI2CAddress(0x76)` and
then `beginI2C()`; afterwards the driver holds address 0x76 and the hardware
is as `beginI2C` at address 0x76 left it, whatever address the driver held
before. -/
theorem connect_sets_address_then_begins (bus : Bus H F) (vb : VirtualBarometer H F) :
    callsDuring vb (vb.connect bus) = [DriverCall.setI2CAddress 0x76, DriverCall.beginI2C] ∧
    (vb.connect bus).sensor.calls =
      vb.sensor.calls ++ [DriverCall.setI2CAddress 0x76, DriverCall.beginI2C] ∧
    (vb.connect bus).sensor.I2CAddress = 0x76 ∧
    (vb.connect bus).sensor.hw = (bus.beginI2C 0x76 vb.sensor.hw).2 ∧
    (vb.connect bus).sensor = ((vb.sensor.setI2CAddress 0x76).beginI2C bus).2 := by
  have hc : (vb.connect bus).sensor.calls =
      vb.sensor.calls ++ [DriverCall.setI2CAddress 0x76, DriverCall.beginI2C] := by
    simp [VirtualBarometer.connect, VirtualBarometer.println, BME280.setI2CAddress,
      BME280.beginI2C]
  exact ⟨callsDuring_append _ _ _ hc, hc, rfl, rfl, rfl⟩

/-- C6: `connect` handles no error.  Whatever two buses answer to `beginI2C`,
`connect` records exactly one `beginI2C` call on each, and leaves the same
base class part, the same driver address and the same call log; when the two
buses also leave the hardware in the same state, the whole objects after
`connect` are equal, although one `beginI2C` may have succeeded and the other
failed.  (`connect` yields the object only: it has no result.) -/
theorem connect_drops_beginI2C_result (bus1 bus2 : Bus H F) (vb : VirtualBarometer H F) :
    (callsDuring vb (vb.connect bus1)).count DriverCall.beginI2C = 1 ∧
    (callsDuring vb (vb.connect bus2)).count DriverCall.beginI2C = 1 ∧
    (vb.connect bus1).toVirtualSensor = (vb.connect bus2).toVirtualSensor ∧
    (vb.connect bus1).sensor.I2CAddress = (vb.connect bus2).sensor.I2CAddress ∧
    (vb.connect bus1).sensor.calls = (vb.connect bus2).sensor.calls ∧
    ((bus1.beginI2C 0x76 vb.sensor.hw).2 = (bus2.beginI2C 0x76 vb.sensor.hw).2 →
      vb.connect bus1 = vb.connect bus2) := by
  have hc : ∀ bus : Bus H F, (vb.connect bus).sensor.calls =
      vb.sensor.calls ++ [DriverCall.setI2CAddress 0x76, DriverCall.beginI2C] := by
    intro bus
    simp [VirtualBarometer.connect, VirtualBarometer.println, BME280.setI2CAddress,
      BME280.beginI2C]
  refine ⟨?_, ?_, rfl, rfl, ?_, ?_⟩
  · rw [callsDuring_append _ _ _ (hc bus1)]; decide
  · rw [callsDuring_append _ _ _ (hc bus2)]; decide
  · rw [hc bus1, hc bus2]
  · intro hhw
    simp only [VirtualBarometer.connect, VirtualBarometer.println, BME280.setI2CAddress,
      BME280.beginI2C]
    simp only [Nat.reduceMod] at *
    rw [hhw]

/-- On the bench `beginI2C` succeeds on `benchBus` and fails on `deadBus`;
`connect` leaves the same object on both. -/
theorem connect_drops_beginI2C_result_witness :
    (benchBus.beginI2C 0x76 (benchAdapter false).sensor.hw).1 = true ∧
    (deadBus.beginI2C 0x76 (benchAdapter false).sensor.hw).1 = false ∧
    (benchAdapter false).connect benchBus = (benchAdapter false).connect deadBus :=
  ⟨rfl, rfl,
    (connect_drops_beginI2C_result benchBus deadBus (benchAdapter false)).2.2.2.2.2 rfl⟩

/-- C8: `connect` does not look at the testing flag.  Setting the flag to any
value before `connect` gives the same object as setting it afterwards, and in
testing mode `connect` still records `setI2CAddress(0x76)` and `beginI2C()`
and runs `beginI2C` on the hardware. -/
theorem connect_ignores_testing (bus : Bus H F) (vb : VirtualBarometer H F) (b : Bool) :
    ({ vb with testing := b } : VirtualBarometer H F).connect bus =
      { vb.connect bus with testing := b } ∧
    callsDuring ({ vb with testing := true } : VirtualBarometer H F)
        (({ vb with testing := true } : VirtualBarometer H F).connect bus) =
      [DriverCall.setI2CAddress 0x76, DriverCall.beginI2C] ∧
    (({ vb with testing := true } : VirtualBarometer H F).connect bus).sensor =
      (({ vb with testing := false } : VirtualBarometer H F).connect bus).sensor ∧
    (({ vb with testing := true } : VirtualBarometer H F).connect bus).sensor.hw =
      (bus.beginI2C 0x76 vb.sensor.hw).2 := by
  refine ⟨rfl, ?_, rfl, rfl⟩
  apply callsDuring_append
  simp [VirtualBarometer.connect, VirtualBarometer.println, BME280.setI2CAddress,
    BME280.beginI2C]

end Connect

/-! ## Fields that no method changes -/

section Frame

variable {H F : Type}

/-- C7: a newly constructed `VirtualBarometer` has manufacturer "Sparkfun"
and name "BME280", whatever the base class and the driver constructors left;
no call of `connect`, `getTemperature`, `getPressure` or `getHumidity` changes
either field, so both still hold after any sequence of such calls. -/
theorem identity_fields_fixed (base : VirtualSensor F) (sensor : BME280 H) (bus : Bus H F) :
    (VirtualBarometer.construct base sensor).manufacturer = "Sparkfun" ∧
    (VirtualBarometer.construct base sensor).name = "BME280" ∧
    (∀ vb : VirtualBarometer H F,
      ((vb.connect bus).manufacturer = vb.manufacturer ∧
        (vb.connect bus).name = vb.name) ∧
      ((vb.getTemperature bus).2.manufacturer = vb.manufacturer ∧
        (vb.getTemperature bus).2.name = vb.name) ∧
      ((vb.getPressure bus).2.manufacturer = vb.manufacturer ∧
        (vb.getPressure bus).2.name = vb.name) ∧
      ((vb.getHumidity bus).2.manufacturer = vb.manufacturer ∧
        (vb.getHumidity bus).2.name = vb.name)) ∧
    ∀ ms : List Method,
      (runMethods bus ms (VirtualBarometer.construct base sensor)).manufacturer = "Sparkfun" ∧
      (runMethods bus ms (VirtualBarometer.construct base sensor)).name = "BME280" := by
  refine ⟨rfl, rfl, ?_, ?_⟩
  · intro vb
    have hc := exec_base bus Method.connect vb
    have ht := exec_base bus Method.getTemperature vb
    have hp := exec_base bus Method.getPressure vb
    have hh := exec_base bus Method.getHumidity vb
    exact ⟨⟨hc.1, hc.2.1⟩, ⟨ht.1, ht.2.1⟩, ⟨hp.1, hp.2.1⟩, ⟨hh.1, hh.2.1⟩⟩
  · intro ms
    have h := runMethods_identity bus ms (VirtualBarometer.construct base sensor)
    exact ⟨h.1.trans rfl, h.2.trans rfl⟩

/-- C9: the accessors are read-only on the adapter.  In every mode a call of
`getTemperature`, `getPressure` or `getHumidity` leaves the testing flag and
the table of simulated values as they were; in testing mode it leaves the
whole object as it was, and a second call of the same accessor returns the
same value as the first. -/
theorem accessors_read_only (bus : Bus H F) (vb : VirtualBarometer H F) :
    ((vb.getTemperature bus).2.testing = vb.testing ∧
      (vb.getTemperature bus).2.simulated = vb.simulated) ∧
    ((vb.getPressure bus).2.testing = vb.testing ∧
      (vb.getPressure bus).2.simulated = vb.simulated) ∧
    ((vb.getHumidity bus).2.testing = vb.testing ∧
      (vb.getHumidity bus).2.simulated = vb.simulated) ∧
    (vb.isTesting = true →
      ((vb.getTemperature bus).2 = vb ∧
        ((vb.getTemperature bus).2.getTemperature bus).1 = (vb.getTemperature bus).1) ∧
      ((vb.getPressure bus).2 = vb ∧
        ((vb.getPressure bus).2.getPressure bus).1 = (vb.getPressure bus).1) ∧
      ((vb.getHumidity bus).2 = vb ∧
        ((vb.getHumidity bus).2.getHumidity bus).1 = (vb.getHumidity bus).1)) := by
  have ht := exec_base bus Method.getTemperature vb
  have hp := exec_base bus Method.getPressure vb
  have hh := exec_base bus Method.getHumidity vb
  refine ⟨⟨ht.2.2.1, ht.2.2.2⟩, ⟨hp.2.2.1, hp.2.2.2⟩, ⟨hh.2.2.1, hh.2.2.2⟩, ?_⟩
  intro hT
  have e1 := getTemperature_testing bus vb hT
  have e2 := getPressure_testing bus vb hT
  have e3 := getHumidity_testing bus vb hT
  refine ⟨⟨?_, ?_⟩, ⟨?_, ?_⟩, ⟨?_, ?_⟩⟩
  · rw [e1]
  · rw [e1]; simp only; rw [e1]
  · rw [e2]
  · rw [e2]; simp only; rw [e2]
  · rw [e3]
  · rw [e3]; simp only; rw [e3]

/-- On the bench, in testing mode, asking twice for each reading gives 15,
90000 and 55 the second time as well. -/
theorem accessors_read_only_witness :
    (benchAdapter true).isTesting = true ∧
    (((benchAdapter true).getTemperature benchBus).2.getTemperature benchBus).1 = 15 ∧
    (((benchAdapter true).getPressure benchBus).2.getPressure benchBus).1 = 90000 ∧
    (((benchAdapter true).getHumidity benchBus).2.getHumidity benchBus).1 = 55 :=
  have h := (accessors_read_only benchBus (benchAdapter true)).2.2.2 rfl
  have v := getTemperature_testing benchBus (benchAdapter true) rfl
  have w := getPressure_testing benchBus (benchAdapter true) rfl
  have x := getHumidity_testing benchBus (benchAdapter true) rfl
  ⟨rfl,
    (h.1.2.trans (congrArg Prod.fst v)).trans
      (by simp [benchAdapter, VirtualBarometer.construct, benchSimulated]),
    (h.2.1.2.trans (congrArg Prod.fst w)).trans
      (by simp [benchAdapter, VirtualBarometer.construct, benchSimulated]),
    (h.2.2.2.trans (congrArg Prod.fst x)).trans
      (by simp [benchAdapter, VirtualBarometer.construct, benchSimulated])⟩

end Frame

/-! ## The documented ranges -/

section Ranges

/-- C3: the comments above the accessors promise a temperature between -40
and 85, a pressure between 30000 and 110000 and a humidity between 0 and 100.
The code does not keep that promise: in testing mode with the simulated value
1000 under every key, `getTemperature`, `getPressure` and `getHumidity` all
return 1000, which lies in none of the three ranges. -/
theorem simulated_reading_escapes_range :
    hotAdapter.isTesting = true ∧
    hotAdapter.simulated "air_temperature" = 1000 ∧
    hotAdapter.simulated "air_pressure" = 1000 ∧
    hotAdapter.simulated "humidity" = 1000 ∧
    (hotAdapter.getTemperature benchBus).1 = 1000 ∧
    (hotAdapter.getPressure benchBus).1 = 1000 ∧
    (hotAdapter.getHumidity benchBus).1 = 1000 ∧
    ¬ temperatureInRange (hotAdapter.getTemperature benchBus).1 ∧
    ¬ pressureInRange (hotAdapter.getPressure benchBus).1 ∧
    ¬ humidityInRange (hotAdapter.getHumidity benchBus).1 := by
  have v := getTemperature_testing benchBus hotAdapter rfl
  have w := getPressure_testing benchBus hotAdapter rfl
  have x := getHumidity_testing benchBus hotAdapter rfl
  have hv : (hotAdapter.getTemperature benchBus).1 = 1000 := congrArg Prod.fst v
  have hw : (hotAdapter.getPressure benchBus).1 = 1000 := congrArg Prod.fst w
  have hx : (hotAdapter.getHumidity benchBus).1 = 1000 := congrArg Prod.fst x
  refine ⟨rfl, rfl, rfl, rfl, hv, hw, hx, ?_, ?_, ?_⟩
  · rw [hv]; unfold temperatureInRange; norm_num
  · rw [hw]; unfold pressureInRange; norm_num
  · rw [hx]; unfold humidityInRange; norm_num

end Ranges

end ApogeeDetect
